import Mathlib

/-!
Verification of the k8s-wait tool (`src/main.rs`).

The tool resolves a Kubernetes resource type from discovery data
(`Args::filter_resource` plus the uniqueness checks in `main`), then watches
the resource until its state matches a user-supplied YAML filter
(`match_state`, driven by `watch_for_condition_met`).

The embedding below translates the relevant Rust functions into Lean:
- `Value` models `serde_yaml::Value` (mappings are ordered association
  lists, as in serde_yaml's insertion-ordered `Mapping`);
- `beqValue` models structural equality of `serde_yaml::Value`
  (`filter == &serialized` in `match_state`'s catch-all arm);
- `lookup_mapping` models `Mapping::get`;
- `match_state` models the recursive filter matcher; the Rust function
  first applies `serde_yaml::to_value` to its second argument, which is the
  identity on an already-serialized `Value`, so the embedding compares the
  two trees directly;
- `Args.filter_resource` models the resolver's per-descriptor criteria
  check, `resolve_resource` the zero/one/many logic of `main`;
- `watch_for_condition_met` models the watch loop over a finite script of
  stream items (`Ok(Event::Applied/Deleted/Restarted)` or `Err`).
-/

/-- Model of `serde_yaml::Value`: null, booleans, numbers (integers),
strings, sequences and mappings. Mappings are insertion-ordered lists of
key-value pairs, mirroring `serde_yaml::Mapping`. -/
inductive Value where
  | null
  | bool (b : Bool)
  | num (n : Int)
  | str (s : String)
  | seq (elems : List Value)
  | map (entries : List (Value × Value))

mutual

/-- Structural equality on `Value`, modelling `PartialEq` of
`serde_yaml::Value` (used by `filter == &serialized` in `match_state`). -/
def beqValue : Value → Value → Bool
  | .null, .null => true
  | .bool a, .bool b => a == b
  | .num a, .num b => a == b
  | .str a, .str b => a == b
  | .seq a, .seq b => beqValueList a b
  | .map a, .map b => beqEntryList a b
  | _, _ => false
termination_by structural v => v

/-- Elementwise equality of `Value` sequences. -/
def beqValueList : List Value → List Value → Bool
  | [], [] => true
  | a :: as, b :: bs => beqValue a b && beqValueList as bs
  | _, _ => false
termination_by structural l => l

/-- Entrywise equality of `Value` mappings. -/
def beqEntryList : List (Value × Value) → List (Value × Value) → Bool
  | [], [] => true
  | (k1, v1) :: as, (k2, v2) :: bs =>
    beqValue k1 k2 && beqValue v1 v2 && beqEntryList as bs
  | _, _ => false
termination_by structural l => l

end

/-- Key lookup in a mapping, modelling `serde_yaml::Mapping::get`:
the value of the first entry whose key equals the requested key. -/
def lookup_mapping : List (Value × Value) → Value → Option Value
  | [], _ => none
  | (k, v) :: rest, key => if beqValue k key then some v else lookup_mapping rest key

/-- True exactly on mapping nodes. -/
def Value.isMapping : Value → Bool
  | .map _ => true
  | _ => false

/-- True exactly on sequence nodes. -/
def Value.isSequence : Value → Bool
  | .seq _ => true
  | _ => false

mutual

/-- Model of `match_state` (src/main.rs lines 110-134): mappings require
every filter entry to be present and recursively matched in the document;
sequences require every filter element to match every document element;
anything else falls back to equality of the two values. -/
def match_state : Value → Value → Bool
  | .map m1, .map m2 => match_mapping m1 m2
  | .seq s1, .seq s2 => match_seq_outer s1 s2
  | f, s => beqValue f s
termination_by f _ => (sizeOf f, 0)

/-- Mapping case of `match_state`: the `for (k, v1) in m1` loop. -/
def match_mapping : List (Value × Value) → List (Value × Value) → Bool
  | [], _ => true
  | (k, v1) :: rest, m2 =>
    (match lookup_mapping m2 k with
     | some v2 => match_state v1 v2
     | none => false) && match_mapping rest m2
termination_by m1 _ => (sizeOf m1, 0)

/-- Sequence case of `match_state`: the outer `s1.iter().all(..)`. -/
def match_seq_outer : List Value → List Value → Bool
  | [], _ => true
  | v1 :: rest, s2 => match_seq_inner v1 s2 && match_seq_outer rest s2
termination_by s1 _ => (sizeOf s1, 0)

/-- Sequence case of `match_state`: the inner `s2.iter().all(..)`. -/
def match_seq_inner : Value → List Value → Bool
  | _, [] => true
  | v1, v2 :: rest => match_state v1 v2 && match_seq_inner v1 rest
termination_by v1 l => (sizeOf v1, 1 + sizeOf l)

end

/-- Model of `kube::api::ApiResource` as used by `Args::filter_resource`:
the catalog descriptor of one resource type. Field names follow the Rust
struct (`group`, `version`, `api_version`, `kind`, `plural`). -/
structure ApiResource where
  group : String
  version : String
  api_version : String
  kind : String
  plural : String

/-- Model of the CLI criteria struct `Args` (src/main.rs lines 27-65):
`kind` and `name` are mandatory, every other criterion is optional. -/
structure Args where
  kind : String
  name : String
  «namespace» : Option String
  group : Option String
  group_version : Option String
  api_version : Option String
  plural : Option String
  timeout : Option Nat

/-- Model of `Args::filter_resource` (src/main.rs lines 68-89). Note the
last conjunct: the supplied `plural` criterion is compared against the
descriptor's `api_version` attribute, exactly as in the source. -/
def Args.filter_resource (self : Args) (api_resource : ApiResource) : Bool :=
  (self.group.map (fun g => g == api_resource.group)).getD true
    && (self.group_version.map (fun v => v == api_resource.version)).getD true
    && (self.api_version.map (fun av => av == api_resource.api_version)).getD true
    && (self.kind == api_resource.kind)
    && (self.plural.map (fun p => p == api_resource.api_version)).getD true

/-- Resolution failures raised by `main`: `anyhow::ensure!(!found.is_empty(), ..)`
and `anyhow::ensure!(found.len() == 1, ..)`. -/
inductive ResolveError where
  | notFound
  | ambiguous
  deriving DecidableEq

/-- Model of the resolution logic in `main` (src/main.rs lines 191-208):
keep the catalog descriptors passing `Args::filter_resource`; fail with
`notFound` on zero survivors, succeed on exactly one, fail with
`ambiguous` on two or more. -/
def resolve_resource (args : Args) (catalog : List ApiResource) :
    Except ResolveError ApiResource :=
  match catalog.filter args.filter_resource with
  | [] => .error .notFound
  | [r] => .ok r
  | _ => .error .ambiguous

/-- Model of `kube::discovery::Scope`: whether a resource type is
cluster-wide or namespaced. -/
inductive Scope where
  | cluster
  | namespaced
  deriving DecidableEq

/-- The scope given to the watch subscription: `Api::all_with` (cluster-wide)
or `Api::namespaced_with ns` (one namespace). -/
inductive ApiSelection where
  | all
  | namespaced (ns : String)
  deriving DecidableEq

/-- Model of the `Api` construction in `main` (src/main.rs lines 210-219):
cluster-scoped resources use `Api::all_with` regardless of `--namespace`;
namespaced resources use the supplied namespace or, when it is absent,
the client's default namespace. -/
def select_api (scope : Scope) (arg_namespace : Option String)
    (default_namespace : String) : ApiSelection :=
  match scope with
  | .cluster => .all
  | .namespaced => .namespaced (arg_namespace.getD default_namespace)

/-- Model of `kube::runtime::watcher::Event` carried by the stream:
`Applied`, `Deleted` (payload unused by the loop) and `Restarted` with a
full snapshot list. -/
inductive WatchEvent where
  | applied (state : Value)
  | deleted (state : Value)
  | restarted (states : List Value)

/-- The fatal exit of the watch loop: the stream ended with no match
(`anyhow::bail!("Watcher stream finished unexpectedly")`). -/
inductive WatchError where
  | streamEnded
  deriving DecidableEq

/-- Model of `watch_for_condition_met` (src/main.rs lines 136-178) over a
finite script of stream items. `Except.ok event` models an `Ok` item,
`Except.error e` a transport/server error item (payload is the error
message, unused). `Applied` states are matched immediately; `Deleted` is
ignored; `Restarted` snapshots are scanned in order for the first match;
error items are logged and skipped. An exhausted script is the fatal
`streamEnded` exit. -/
def watch_for_condition_met (filter : Value) :
    List (Except String WatchEvent) → Except WatchError Value
  | [] => .error .streamEnded
  | .ok (.applied state) :: rest =>
    if match_state filter state then .ok state
    else watch_for_condition_met filter rest
  | .ok (.deleted _) :: rest => watch_for_condition_met filter rest
  | .ok (.restarted states) :: rest =>
    match states.find? (fun state => match_state filter state) with
    | some state => .ok state
    | none => watch_for_condition_met filter rest
  | .error _ :: rest => watch_for_condition_met filter rest

/-- Structural equality `beqValue` agrees with propositional equality. -/
theorem beqValue_iff_eq : ∀ a b : Value, beqValue a b = true ↔ a = b := by
  refine beqValue.induct
    (fun a b => beqValue a b = true ↔ a = b)
    (fun as bs => beqEntryList as bs = true ↔ as = bs)
    (fun as bs => beqValueList as bs = true ↔ as = bs)
    ?_ ?_ ?_ ?_ ?_ ?_ ?_ ?_ ?_ ?_ ?_ ?_ ?_
  · simp [beqValue]
  · intro a b; simp [beqValue]
  · intro a b; simp [beqValue]
  · intro a b; simp [beqValue]
  · intro a b ih; simp [beqValue, ih]
  · intro a b ih; simp [beqValue, ih]
  · intro t x h1 h2 h3 h4 h5 h6
    cases t <;> cases x <;> first
      | exact (h1 rfl rfl).elim
      | exact (h2 _ _ rfl rfl).elim
      | exact (h3 _ _ rfl rfl).elim
      | exact (h4 _ _ rfl rfl).elim
      | exact (h5 _ _ rfl rfl).elim
      | exact (h6 _ _ rfl rfl).elim
      | simp [beqValue]
  · simp [beqValueList]
  · intro a as b bs ih1 ih2; simp [beqValueList, ih1, ih2]
  · intro t x h1 h2
    cases t <;> cases x <;> first
      | exact (h1 rfl rfl).elim
      | exact (h2 _ _ _ _ rfl rfl).elim
      | simp [beqValueList]
  · simp [beqEntryList]
  · intro k1 v1 as k2 v2 bs ih1 ih2 ih3
    simp [beqEntryList, ih1, ih2, ih3, and_assoc]
  · intro t x h1 h2
    cases t <;> cases x <;> first
      | exact (h1 rfl rfl).elim
      | exact (h2 _ _ _ _ _ _ rfl rfl).elim
      | simp [beqEntryList]

/-- Inner sequence loop: true iff the filter element matches every document
element. -/
theorem match_seq_inner_iff (v1 : Value) (l : List Value) :
    match_seq_inner v1 l = true ↔ ∀ v2 ∈ l, match_state v1 v2 = true := by
  induction l with
  | nil => simp [match_seq_inner]
  | cons v2 rest ih => simp [match_seq_inner, ih]

/-- Outer sequence loop: true iff every filter element matches every
document element. -/
theorem match_seq_outer_iff (s1 s2 : List Value) :
    match_seq_outer s1 s2 = true ↔
      ∀ v1 ∈ s1, ∀ v2 ∈ s2, match_state v1 v2 = true := by
  induction s1 with
  | nil => simp [match_seq_outer]
  | cons v1 rest ih => simp [match_seq_outer, match_seq_inner_iff, ih]

/-- Mapping loop: true iff every filter entry's key resolves in the
document and the corresponding values match recursively. -/
theorem match_mapping_iff (m1 m2 : List (Value × Value)) :
    match_mapping m1 m2 = true ↔
      ∀ kv ∈ m1, ∃ v2, lookup_mapping m2 kv.1 = some v2 ∧
        match_state kv.2 v2 = true := by
  induction m1 with
  | nil => simp [match_mapping]
  | cons kv rest ih =>
    obtain ⟨k, v1⟩ := kv
    cases h : lookup_mapping m2 k with
    | none => simp [match_mapping, h]
    | some v2 => simp [match_mapping, h, ih]

/-- C1: when both nodes are sequences, the match succeeds iff every element
of the filter sequence matches every element of the document sequence
(all-against-all); concretely, the filter sequence holding one mapping
with key x value 1 matches the document sequence holding one mapping with
keys x and y, while adding a second filter element with key z value 9
makes the match fail. -/
theorem seq_filter_all_against_all :
    (∀ s1 s2 : List Value, match_state (.seq s1) (.seq s2) = true ↔
      ∀ v1 ∈ s1, ∀ v2 ∈ s2, match_state v1 v2 = true)
    ∧ match_state (.seq [.map [(.str "x", .num 1)]])
        (.seq [.map [(.str "x", .num 1), (.str "y", .num 2)]]) = true
    ∧ match_state (.seq [.map [(.str "x", .num 1)], .map [(.str "z", .num 9)]])
        (.seq [.map [(.str "x", .num 1), (.str "y", .num 2)]]) = false := by
  refine ⟨fun s1 s2 => ?_, ?_, ?_⟩
  · simp [match_state, match_seq_outer_iff]
  · simp [match_state, match_seq_outer, match_seq_inner, match_mapping,
      lookup_mapping, beqValue]
  · simp [match_state, match_seq_outer, match_seq_inner, match_mapping,
      lookup_mapping, beqValue]

/-- Witness for C1 at the concrete sequences from the claim. -/
theorem seq_filter_all_against_all_witness :
    match_state (.seq [.map [(.str "x", .num 1)]])
      (.seq [.map [(.str "x", .num 1), (.str "y", .num 2)]]) = true :=
  seq_filter_all_against_all.2.1

/-- C4: when both nodes are mappings, the match succeeds iff every key of
the filter is present in the document with a recursively matching value;
the empty filter mapping matches any document mapping, and a filter key
missing from the document forces the match to fail. -/
theorem mapping_filter_requires_all_keys :
    (∀ m1 m2 : List (Value × Value), match_state (.map m1) (.map m2) = true ↔
      ∀ kv ∈ m1, ∃ v2, lookup_mapping m2 kv.1 = some v2 ∧
        match_state kv.2 v2 = true)
    ∧ (∀ m2 : List (Value × Value), match_state (.map []) (.map m2) = true)
    ∧ (∀ (m1 m2 : List (Value × Value)) (k v1 : Value),
        (k, v1) ∈ m1 → lookup_mapping m2 k = none →
        match_state (.map m1) (.map m2) = false) := by
  refine ⟨fun m1 m2 => by simp [match_state, match_mapping_iff],
    fun m2 => by simp [match_state, match_mapping], ?_⟩
  intro m1 m2 k v1 hmem hnone
  cases h : match_mapping m1 m2 with
  | false => simp [match_state, h]
  | true =>
    obtain ⟨v2, hl, _⟩ := (match_mapping_iff m1 m2).mp h (k, v1) hmem
    simp [hnone] at hl

/-- Witness for C4: the filter mapping with key a misses from the empty
document mapping, so the match fails. -/
theorem mapping_filter_requires_all_keys_witness :
    ((Value.str "a", Value.num 1) ∈ [((Value.str "a" : Value), (Value.num 1 : Value))]
      ∧ lookup_mapping [] (Value.str "a") = none)
    ∧ match_state (.map [(.str "a", .num 1)]) (.map []) = false :=
  ⟨⟨by simp, rfl⟩,
    mapping_filter_requires_all_keys.2.2 [(.str "a", .num 1)] []
      (.str "a") (.num 1) (by simp) rfl⟩

/-- C9: when the two nodes are not both mappings and not both sequences,
the match reduces to equality of the two values. -/
theorem scalar_or_mismatch_eq (f s : Value)
    (hm : (f.isMapping && s.isMapping) = false)
    (hs : (f.isSequence && s.isSequence) = false) :
    match_state f s = true ↔ f = s := by
  cases f <;> cases s <;>
    simp_all [match_state, Value.isMapping, Value.isSequence, beqValue_iff_eq]

/-- Witness for C9 at two equal scalar numbers. -/
theorem scalar_or_mismatch_eq_witness :
    ((Value.num 1).isMapping && (Value.num 1).isMapping) = false
    ∧ ((Value.num 1).isSequence && (Value.num 1).isSequence) = false
    ∧ (match_state (Value.num 1) (Value.num 1) = true ↔ Value.num 1 = Value.num 1) :=
  ⟨rfl, rfl, scalar_or_mismatch_eq (Value.num 1) (Value.num 1) rfl rfl⟩

/-- Characterization of `Args.filter_resource`: a descriptor passes iff
every supplied optional criterion agrees with the attribute the code
compares it to, and the mandatory kind matches exactly. The supplied
plural criterion is compared against the descriptor's api_version. -/
theorem filter_resource_iff (args : Args) (r : ApiResource) :
    args.filter_resource r = true ↔
      (∀ g ∈ args.group, g = r.group) ∧
      (∀ v ∈ args.group_version, v = r.version) ∧
      (∀ av ∈ args.api_version, av = r.api_version) ∧
      args.kind = r.kind ∧
      (∀ p ∈ args.plural, p = r.api_version) := by
  cases hg : args.group <;> cases hv : args.group_version <;>
    cases hav : args.api_version <;> cases hp : args.plural <;>
    simp [Args.filter_resource, hg, hv, hav, hp, and_assoc]

/-- Concrete descriptor of the apps/v1 Deployment resource type, for the
demonstrations below. Its plural attribute is distinct from its
api_version attribute. -/
def deployment_resource : ApiResource :=
  ⟨"apps", "v1", "apps/v1", "Deployment", "deployments"⟩

/-- Criteria that supply only the mandatory kind Deployment and the
optional plural criterion with the given value. -/
def args_with_plural (p : String) : Args :=
  ⟨"Deployment", "my-app", none, none, none, none, some p, none⟩

/-- C2: the plural-name criterion passes iff the supplied value equals the
descriptor's api_version attribute, while group, group-version and
api-version criteria are compared against their like-named attributes;
concretely, supplying the descriptor's real plural name fails, and
supplying its api_version value passes. -/
theorem filter_resource_plural_vs_api_version :
    (∀ (args : Args) (r : ApiResource), args.filter_resource r = true ↔
      (∀ g ∈ args.group, g = r.group) ∧
      (∀ v ∈ args.group_version, v = r.version) ∧
      (∀ av ∈ args.api_version, av = r.api_version) ∧
      args.kind = r.kind ∧
      (∀ p ∈ args.plural, p = r.api_version))
    ∧ (args_with_plural "deployments").filter_resource deployment_resource = false
    ∧ (args_with_plural "apps/v1").filter_resource deployment_resource = true :=
  ⟨filter_resource_iff, by decide, by decide⟩

/-- Witness for C2: the criteria supplying the descriptor's api_version as
the plural criterion pass the filter. -/
theorem filter_resource_plural_vs_api_version_witness :
    (args_with_plural "apps/v1").filter_resource deployment_resource = true :=
  filter_resource_plural_vs_api_version.2.2

/-- C3: resolution succeeds with the unique catalog descriptor passing the
criteria check when exactly one passes, fails with notFound when none
does, fails with ambiguous when two or more do, and any returned
descriptor passes the criteria check, has the required kind, and comes
from the catalog. -/
theorem resolve_resource_cases :
    ∀ (args : Args) (catalog : List ApiResource),
      (resolve_resource args catalog = .error .notFound ↔
        catalog.filter args.filter_resource = []) ∧
      (∀ r, resolve_resource args catalog = .ok r ↔
        catalog.filter args.filter_resource = [r]) ∧
      (resolve_resource args catalog = .error .ambiguous ↔
        2 ≤ (catalog.filter args.filter_resource).length) ∧
      (∀ r, resolve_resource args catalog = .ok r →
        args.filter_resource r = true ∧ args.kind = r.kind ∧ r ∈ catalog) := by
  intro args catalog
  rcases h : catalog.filter args.filter_resource with _ | ⟨r0, _ | ⟨r1, rest⟩⟩
  · simp [resolve_resource, h]
  · refine ⟨by simp [resolve_resource, h], by simp [resolve_resource, h],
      by simp [resolve_resource, h], ?_⟩
    intro r hr
    have hrr : r = r0 := by
      have := hr
      simp [resolve_resource, h] at this
      exact this.symm
    subst hrr
    have hmem : r ∈ catalog.filter args.filter_resource := by
      rw [h]; exact List.mem_singleton.mpr rfl
    have hsplit := List.mem_filter.mp hmem
    exact ⟨hsplit.2, ((filter_resource_iff args r).mp hsplit.2).2.2.2.1,
      hsplit.1⟩
  · simp [resolve_resource, h]

/-- Witness for C3: a one-descriptor catalog resolved by criteria the
descriptor passes yields exactly that descriptor, which has the required
kind and is a catalog member. -/
theorem resolve_resource_cases_witness :
    resolve_resource (args_with_plural "apps/v1") [deployment_resource] =
      .ok deployment_resource
    ∧ ((args_with_plural "apps/v1").filter_resource deployment_resource = true
      ∧ (args_with_plural "apps/v1").kind = deployment_resource.kind
      ∧ deployment_resource ∈ [deployment_resource]) := by
  have hok : resolve_resource (args_with_plural "apps/v1") [deployment_resource] =
      .ok deployment_resource := by
    simp [resolve_resource, List.filter, filter_resource_plural_vs_api_version_witness]
  exact ⟨hok,
    (resolve_resource_cases (args_with_plural "apps/v1") [deployment_resource]).2.2.2
      deployment_resource hok⟩

/-- C5: on a Restarted event the loop scans the snapshots in sequence
order and returns the first one matching the filter; if none matches it
keeps consuming the remaining stream; in the two-snapshot case the result
is the second snapshot when only it matches and the first snapshot
whenever the first matches. -/
theorem watch_restarted_first_match (filter s1 s2 : Value) (ss : List Value)
    (rest : List (Except String WatchEvent)) :
    (∀ s, ss.find? (fun st => match_state filter st) = some s →
      watch_for_condition_met filter (.ok (.restarted ss) :: rest) = .ok s) ∧
    ((∀ s ∈ ss, match_state filter s = false) →
      watch_for_condition_met filter (.ok (.restarted ss) :: rest) =
        watch_for_condition_met filter rest) ∧
    (match_state filter s1 = false → match_state filter s2 = true →
      watch_for_condition_met filter (.ok (.restarted [s1, s2]) :: rest) =
        .ok s2) ∧
    (match_state filter s1 = true →
      watch_for_condition_met filter (.ok (.restarted [s1, s2]) :: rest) =
        .ok s1) := by
  refine ⟨?_, ?_, ?_, ?_⟩
  · intro s h
    simp [watch_for_condition_met, h]
  · intro h
    have hnone : ss.find? (fun st => match_state filter st) = none :=
      List.find?_eq_none.mpr (fun x hx => by simp [h x hx])
    simp [watch_for_condition_met, hnone]
  · intro h1 h2
    simp [watch_for_condition_met, List.find?, h1, h2]
  · intro h1
    simp [watch_for_condition_met, List.find?, h1]

/-- Witness for C5: with a null filter, the Restarted snapshot list holding
a non-matching number and then a matching null returns the null snapshot. -/
theorem watch_restarted_first_match_witness :
    match_state Value.null (Value.num 1) = false
    ∧ match_state Value.null Value.null = true
    ∧ watch_for_condition_met Value.null
        [.ok (.restarted [Value.num 1, Value.null])] = .ok Value.null := by
  have h1 : match_state Value.null (Value.num 1) = false := by
    simp [match_state, beqValue]
  have h2 : match_state Value.null Value.null = true := by
    simp [match_state, beqValue]
  exact ⟨h1, h2,
    (watch_restarted_first_match Value.null (Value.num 1) Value.null [] []).2.2.1
      h1 h2⟩

/-- C6: Deleted events are ignored, an Applied event whose state matches
terminates the loop with that state, a non-matching Applied event is
skipped, and for the scripted events Deleted, Applied(non-matching),
Applied(matching) the loop returns the matching state regardless of any
further scripted events. -/
theorem watch_applied_deleted (filter s s1 d : Value)
    (rest : List (Except String WatchEvent)) :
    (watch_for_condition_met filter (.ok (.deleted d) :: rest) =
      watch_for_condition_met filter rest) ∧
    (match_state filter s = true →
      watch_for_condition_met filter (.ok (.applied s) :: rest) = .ok s) ∧
    (match_state filter s = false →
      watch_for_condition_met filter (.ok (.applied s) :: rest) =
        watch_for_condition_met filter rest) ∧
    (match_state filter s1 = false → match_state filter s = true →
      watch_for_condition_met filter
        (.ok (.deleted d) :: .ok (.applied s1) :: .ok (.applied s) :: rest) =
        .ok s) := by
  refine ⟨rfl, ?_, ?_, ?_⟩
  · intro h
    simp [watch_for_condition_met, h]
  · intro h
    simp [watch_for_condition_met, h]
  · intro h1 h2
    simp [watch_for_condition_met, h1, h2]

/-- Witness for C6 at the scripted events from the claim, with a null
filter, a deleted number, a non-matching number and a matching null. -/
theorem watch_applied_deleted_witness :
    match_state Value.null (Value.num 1) = false
    ∧ match_state Value.null Value.null = true
    ∧ watch_for_condition_met Value.null
        [.ok (.deleted (Value.num 0)), .ok (.applied (Value.num 1)),
         .ok (.applied Value.null)] = .ok Value.null := by
  have h1 : match_state Value.null (Value.num 1) = false := by
    simp [match_state, beqValue]
  have h2 : match_state Value.null Value.null = true := by
    simp [match_state, beqValue]
  exact ⟨h1, h2,
    (watch_applied_deleted Value.null Value.null (Value.num 1) (Value.num 0) []).2.2.2
      h1 h2⟩

/-- C8: an error item delivered by the stream never changes the loop's
result - the loop continues with the remaining items - and in particular
an error followed by a matching Applied event still succeeds with the
matching state. -/
theorem watch_error_transient (filter s : Value) (e : String)
    (rest : List (Except String WatchEvent)) :
    (watch_for_condition_met filter (.error e :: rest) =
      watch_for_condition_met filter rest) ∧
    (match_state filter s = true →
      watch_for_condition_met filter (.error e :: .ok (.applied s) :: rest) =
        .ok s) := by
  refine ⟨rfl, ?_⟩
  intro h
  simp [watch_for_condition_met, h]

/-- Witness for C8: a transient error followed by a matching Applied event
ends in success with the matching state. -/
theorem watch_error_transient_witness :
    match_state Value.null Value.null = true
    ∧ watch_for_condition_met Value.null
        [.error "connection reset", .ok (.applied Value.null)] =
        .ok Value.null := by
  have h : match_state Value.null Value.null = true := by
    simp [match_state, beqValue]
  exact ⟨h,
    (watch_error_transient Value.null Value.null "connection reset" []).2 h⟩

/-- C10: namespaced resources with no supplied namespace are watched in
the client's default namespace, namespaced resources with a supplied
namespace are watched there, and cluster-scoped resources are watched
cluster-wide whether or not a namespace was supplied. -/
theorem select_api_scope (ns d : String) :
    select_api .cluster none d = .all ∧
    select_api .cluster (some ns) d = .all ∧
    select_api .namespaced none d = .namespaced d ∧
    select_api .namespaced (some ns) d = .namespaced ns :=
  ⟨rfl, rfl, rfl, rfl⟩

/-- Witness for C10 at concrete namespace strings. -/
theorem select_api_scope_witness :
    select_api .namespaced none "default" = .namespaced "default" ∧
    select_api .cluster (some "kube-system") "default" = .all :=
  ⟨(select_api_scope "kube-system" "default").2.2.1,
    (select_api_scope "kube-system" "default").2.1⟩
